import Mathlib

/-!
Verification of the Observation Normalization Engine of `synoptic/services.py`.

The development shallowly embeds the engine's pure logic:

* the parameter normalization steps of `synoptic_api` (key lower-casing,
  list joining, datetime / obrange / duration conversion, token default);
* the wind decomposer `spddir_to_uv` (scalar and vectorized);
* the set/value disambiguators `_rename_set_1` and `_rename_value_1`;
* the wind-column constructions of `stations_timeseries` and of
  `_parse_latest_nearesttime` (the snapshot builder);
* the response check of `synoptic_api` (assert on `RESPONSE_CODE`);
* the single-vs-list return shape of `stations_timeseries`.

Machine floats are modelled as rationals, with `Option ℚ` standing for a
float that may be NaN (`none` = NaN / missing, as produced by
`np.array([.., None, ..], dtype=float)`).  The real-valued trigonometric
functions (`np.sin`, `np.cos`) and the constant `rad = 4*arctan(1)/180`
are abstracted as parameters, since only their pointwise application
matters to the properties below.
-/

/-- Model of a `pandas.Timestamp` / `datetime.datetime`: the calendar
fields that the engine's `%Y%m%d%H%M` formatting reads. -/
structure PyDatetime where
  year : ℕ
  month : ℕ
  day : ℕ
  hour : ℕ
  minute : ℕ
deriving DecidableEq

/-- Scalar parameter values that flow through `synoptic_api`'s `**params`:
strings, Python ints, floats (as exact rationals), datetime-likes and
timedelta-likes (stored as a rational number of minutes). -/
inductive PScalar where
  | str (s : String)
  | int (n : ℤ)
  | float (q : ℚ)
  | dt (t : PyDatetime)
  | td (minutes : ℚ)
deriving DecidableEq

/-- A parameter value: a scalar or a list of scalars (the shapes the
Synoptic client actually passes, e.g. `stid=['KSLC','KMRY']` or an
`obrange` pair of dates). -/
inductive PValue where
  | scalar (x : PScalar)
  | list (l : List PScalar)
deriving DecidableEq

/-- Shorthand for a string-valued parameter. -/
def PValue.str (s : String) : PValue := .scalar (.str s)

/-- Shorthand for an int-valued parameter. -/
def PValue.int (n : ℤ) : PValue := .scalar (.int n)

/-- Shorthand for a float-valued parameter. -/
def PValue.float (q : ℚ) : PValue := .scalar (.float q)

/-- Shorthand for a datetime-valued parameter. -/
def PValue.dt (t : PyDatetime) : PValue := .scalar (.dt t)

/-- Shorthand for a timedelta-valued parameter. -/
def PValue.td (m : ℚ) : PValue := .scalar (.td m)

/-- Python exceptions the normalizer can raise. -/
inductive PyError where
  | valueError
  | typeError
deriving DecidableEq

/-- Zero-pad a natural number to two digits, as `%m`, `%d`, `%H`, `%M` do. -/
def pad2 (n : ℕ) : String := if n < 10 then "0" ++ toString n else toString n

/-- Zero-pad a natural number to four digits, as `%Y` does. -/
def pad4 (n : ℕ) : String :=
  if n < 10 then "000" ++ toString n
  else if n < 100 then "00" ++ toString n
  else if n < 1000 then "0" ++ toString n
  else toString n

/-- `f"{ts:%Y%m%d%H%M}"` applied to a datetime value. -/
def formatYmdHM (t : PyDatetime) : String :=
  pad4 t.year ++ pad2 t.month ++ pad2 t.day ++ pad2 t.hour ++ pad2 t.minute

/-- `f"{ts:%Y%m%d}"` applied to a datetime value. -/
def formatYmd (t : PyDatetime) : String :=
  pad4 t.year ++ pad2 t.month ++ pad2 t.day

/-- `str(value)` for the scalars a parameter list may hold.  Exact for the
strings and ints the station selectors use; for the remaining scalar
shapes a representative textual rendering stands in for Python's `str`. -/
def pyStr : PScalar → String
  | .str s => s
  | .int n => toString n
  | .float q => toString q
  | .dt t => formatYmd t
  | .td m => toString m

/-- Python `str.isnumeric` restricted to ASCII digits (the wire-format
timestamps the engine expects). -/
def pyIsNumeric (s : String) : Bool :=
  s ≠ "" && s.data.all Char.isDigit

/-- Digits-to-number accumulator for the wire-format timestamp parser. -/
def digitsToNat (l : List Char) : ℕ :=
  l.foldl (fun a c => a * 10 + (c.toNat - 48)) 0

/-- Parse a `"YYYYmmdd HHMM"` string (the form `synoptic_api` builds from
a compact numeric timestamp before handing it to pandas). -/
def parseWireDT (s : String) : Option PyDatetime :=
  let cs := s.data
  if cs.length = 13 && (cs.take 8).all Char.isDigit && cs.getD 8 ' ' = ' '
      && ((cs.drop 9).all Char.isDigit) then
    some { year := digitsToNat (cs.take 4)
           month := digitsToNat ((cs.drop 4).take 2)
           day := digitsToNat ((cs.drop 6).take 2)
           hour := digitsToNat ((cs.drop 9).take 2)
           minute := digitsToNat ((cs.drop 11).take 2) }
  else none

/-- Modelled from the spec: `pd.to_datetime` is external pandas code, not
part of this repository.  The model accepts a datetime value unchanged
and parses the `"YYYYmmdd HHMM"` wire form the engine constructs; all
other inputs (arbitrary text, ints, timedeltas) are unparsable and yield
`none`, modelling the exception pandas raises. -/
def pdToDatetime : PValue → Option PyDatetime
  | .scalar (.dt t) => some t
  | .scalar (.str s) => parseWireDT s
  | _ => none

/-- Modelled from the spec: the commonly-parsable duration text pandas
accepts — a digit count followed by a unit, e.g. `"1D"` (days), `"1W"`
(weeks), `"1h"` (hours), `"30min"`/`"30m"`/`"30T"` (minutes) — rendered
as a number of minutes.  Text without a leading count or with an
unrecognized unit (e.g. `"garbage"`) is unparsable. -/
def parseDurationText (s : String) : Option ℚ :=
  let digits := s.data.takeWhile Char.isDigit
  let unit := s.data.dropWhile Char.isDigit
  if digits.isEmpty then none
  else
    let n := digitsToNat digits
    let factor : Option ℕ :=
      if unit = ['W'] then some 10080
      else if unit = ['D'] then some 1440
      else if unit = ['d'] then some 1440
      else if unit = ['h'] then some 60
      else if unit = ['m', 'i', 'n'] then some 1
      else if unit = ['m'] then some 1
      else if unit = ['T'] then some 1
      else none
    factor.map fun f => ((n * f : ℕ) : ℚ)

/-- Modelled from the spec: `pd.to_timedelta` is external pandas code.
The model accepts a timedelta value (returning its length in minutes)
and parses commonly-parsable duration text such as `"1D"`; other inputs
are unparsable and yield `none`, modelling the exception pandas raises
on text such as `"garbage"`. -/
def pdToTimedelta : PValue → Option ℚ
  | .scalar (.td m) => some m
  | .scalar (.str s) => parseDurationText s
  | _ => none

/-- `f"{v:%Y%m%d%H%M}"` applied to an arbitrary value: a datetime value
formats to the fixed-width string, while a string (or any other
non-datetime) makes Python's format machinery raise
`ValueError: Invalid format specifier`. -/
def pyFormatYmdHM : PValue → Except PyError PValue
  | .scalar (.dt t) => .ok (.str (formatYmdHM t))
  | _ => .error .valueError

/-- `f"{v:%Y%m%d}"` applied to an arbitrary value (the `obrange` date
formatting); non-datetimes raise `ValueError`. -/
def pyFormatYmd : PValue → Except PyError String
  | .scalar (.dt t) => .ok (formatYmd t)
  | _ => .error .valueError

/-- Step 3 of `synoptic_api`, for one of the keys `start`, `end`,
`expire`, `attime`: pad a compact numeric timestamp string, try
`pd.to_datetime`, warn (non-fatally) when the parse fails — and then
unconditionally apply the `%Y%m%d%H%M` format to whatever `params[i]`
holds.  On a parse failure `params[i]` still holds the raw input, so the
format raises for any non-datetime raw value. -/
def normalizeDatetimeValue (v : PValue) : Except PyError PValue :=
  let date : PValue :=
    match v with
    | .scalar (.str s) =>
        if s.length ≥ 8 && pyIsNumeric s then
          .str (String.mk (s.data.take 8) ++ " " ++ String.mk (s.data.drop 8))
        else .str s
    | _ => v
  match pdToDatetime date with
  | some t => .ok (.str (formatYmdHM t))
  | none => pyFormatYmdHM v

/-- Step 5 of `synoptic_api`, for one of the keys `recent`, `within`:
an int or float is first wrapped as `timedelta(minutes=dt)`; then
`pd.to_timedelta` is tried, warning (non-fatally) when the parse fails —
and then `params[i] / timedelta(minutes=1)` is taken and rounded up with
`np.ceil(..).astype(int)`.  On a parse failure `params[i]` still holds
the raw input, and dividing a non-timedelta by a timedelta raises
`TypeError`. -/
def normalizeDurationValue (v : PValue) : Except PyError PValue :=
  let dt : PValue :=
    match v with
    | .scalar (.int n) => .td (n : ℚ)
    | .scalar (.float q) => .td q
    | _ => v
  match pdToTimedelta dt with
  | some m => .ok (.int ⌈m⌉)
  | none =>
    match v with
    | .scalar (.td m) => .ok (.int ⌈m⌉)
    | _ => .error .typeError

/-- A parameter mapping, in insertion order (Python dicts preserve it).
On duplicate keys, later entries shadow earlier ones when the map is
read. -/
abbrev ParamMap : Type := List (String × PValue)

/-- `params.setdefault("token", ..)`. -/
def setdefaultToken (tok : String) (m : ParamMap) : ParamMap :=
  if (List.any m fun p => p.1 == "token") then m else m ++ [("token", PValue.str tok)]

/-- ASCII lower-casing of one character (`str.lower` on the ASCII
parameter names the engine receives). -/
def asciiLower (c : Char) : Char :=
  if 65 ≤ c.toNat && c.toNat ≤ 90 then Char.ofNat (c.toNat + 32) else c

/-- `k.lower()` on a parameter name. -/
def lowerString (s : String) : String := String.mk (s.data.map asciiLower)

/-- Step 1: force every key to lower case. -/
def lowerKeys (m : ParamMap) : ParamMap :=
  List.map (fun p => (lowerString p.1, p.2)) m

/-- Step 2: join list values as comma-separated strings of `str(i)`,
for every key except `obrange`. -/
def joinLists (m : ParamMap) : ParamMap :=
  List.map (fun p =>
    match p with
    | (k, .list l) =>
        if k == "obrange" then (k, PValue.list l)
        else (k, PValue.str (String.intercalate "," (l.map pyStr)))
    | other => other) m

/-- Apply a fallible per-value transform to the entry at key `k`, when
present; an exception raised for that value aborts the whole
normalization (the surrounding Python loop has no handler). -/
def mapKeyM (k : String) (f : PValue → Except PyError PValue) (m : ParamMap) :
    Except PyError ParamMap :=
  match List.find? (fun p => p.1 == k) m with
  | none => .ok m
  | some (_, v) => do
    let v2 ← f v
    .ok (List.map (fun p => if p.1 == k then (k, v2) else p) m)

/-- Step 4: the `obrange` special case — a non-string value (a single
date or a list of dates) becomes a comma-joined string of `%Y%m%d`
renderings. -/
def obrangeStep (m : ParamMap) : Except PyError ParamMap :=
  match List.find? (fun p => p.1 == "obrange") m with
  | none => .ok m
  | some (_, PValue.scalar (.str _)) => .ok m
  | some (_, v) =>
    let items : List PValue :=
      match v with
      | .list l => l.map PValue.scalar
      | _ => [v]
    do
      let strs ← items.mapM pyFormatYmd
      .ok (List.map
        (fun p => if p.1 == "obrange" then ("obrange", PValue.str (String.intercalate "," strs)) else p)
        m)

/-- The parameter-normalization phase of `synoptic_api` (steps 1–5 plus
the token default), exactly in source order.  `tok` is the configured
default token (external configuration). -/
def normalizeParams (tok : String) (params : ParamMap) : Except PyError ParamMap := do
  let m := setdefaultToken tok params
  let m := lowerKeys m
  let m := joinLists m
  let m ← mapKeyM "start" normalizeDatetimeValue m
  let m ← mapKeyM "end" normalizeDatetimeValue m
  let m ← mapKeyM "expire" normalizeDatetimeValue m
  let m ← mapKeyM "attime" normalizeDatetimeValue m
  let m ← obrangeStep m
  let m ← mapKeyM "recent" normalizeDurationValue m
  let m ← mapKeyM "within" normalizeDurationValue m
  .ok m

/-- Look a key up in a parameter mapping (last binding wins, as in a
Python dict built by successive assignment). -/
def lookupParam (m : ParamMap) (k : String) : Option PValue :=
  (List.find? (fun p => p.1 == k) m.reverse).map (·.2)

/-- `np.round(x, 3)` rounds half to even (`np.rint` semantics), modelled
exactly on rationals: round ties of `q * 1000` to the even integer. -/
def roundHalfEven (q : ℚ) : ℤ :=
  let f := ⌊q⌋
  let frac := q - f
  if frac < 1 / 2 then f
  else if 1 / 2 < frac then f + 1
  else if f % 2 = 0 then f else f + 1

/-- `np.round(x, 3)`: three-decimal rounding. -/
def np_round3 (q : ℚ) : ℚ := (roundHalfEven (q * 1000) : ℚ) / 1000

/-- `spddir_to_uv` on one scalar pair.  `none` models a NaN float (the
zero-speed guard `wspd == 0` is false on NaN, so NaN propagates).
`sinF`/`cosF` abstract `np.sin`/`np.cos`, and `rad` abstracts the
constant `4.0 * np.arctan(1) / 180.0`. -/
def spddir_to_uv (sinF cosF : ℚ → ℚ) (rad : ℚ) (wspd wdir : Option ℚ) :
    Option ℚ × Option ℚ :=
  let u := wspd.bind fun s => wdir.map fun d => -s * sinF (rad * d)
  let v := wspd.bind fun s => wdir.map fun d => -s * cosF (rad * d)
  let u := if wspd = some 0 then some 0 else u
  let v := if wspd = some 0 then some 0 else v
  (u.map np_round3, v.map np_round3)

/-- `spddir_to_uv` on list input: the lists are converted to float arrays
(`None` becomes NaN, i.e. `none`), the formula is applied elementwise,
positions with speed exactly `0` are forced to `0`
(`u[np.where(wspd == 0)] = 0`), and the result is rounded to three
decimals. -/
def spddir_to_uv_vec (sinF cosF : ℚ → ℚ) (rad : ℚ) (wspd wdir : List (Option ℚ)) :
    List (Option ℚ) × List (Option ℚ) :=
  let u := List.zipWith (fun s d => s.bind fun sv => d.map fun dv => -sv * sinF (rad * dv)) wspd wdir
  let v := List.zipWith (fun s d => s.bind fun sv => d.map fun dv => -sv * cosF (rad * dv)) wspd wdir
  let u := List.zipWith (fun s x => if s = some 0 then some 0 else x) wspd u
  let v := List.zipWith (fun s x => if s = some 0 then some 0 else x) wspd v
  (u.map (Option.map np_round3), v.map (Option.map np_round3))

/-- Python's substring test `pat in s`. -/
def strContains (s pat : String) : Bool := decide (pat.data <:+: s.data)

/-- Python's `s.startswith(pat)`. -/
def strStartsWith (s pat : String) : Bool := List.isPrefixOf pat.data s.data

/-- Python's `v.split(sep)` for a one-character separator. -/
def splitOnChar (sep : Char) : List Char → List (List Char)
  | [] => [[]]
  | c :: cs =>
    if c = sep then [] :: splitOnChar sep cs
    else
      match splitOnChar sep cs with
      | h :: t => (c :: h) :: t
      | [] => [[c]]

/-- `v.split("_")` as a list of strings. -/
def splitUnderscore (v : String) : List String :=
  (splitOnChar '_' v.data).map String.mk

/-- `"_".join(parts)`. -/
def joinUnderscore (parts : List String) : String :=
  String.intercalate "_" parts

/-- `"_".join(v.split("_")[:-2])`: drop the last two underscore-separated
components and rejoin. -/
def joinDropLast2 (v : String) : String :=
  joinUnderscore (splitUnderscore v).dropLast.dropLast

/-- `"_".join(v.split("_")[-2:])`: keep only the last two
underscore-separated components (the `set_<n>` suffix of a wind label). -/
def joinLast2 (v : String) : String :=
  let parts := splitUnderscore v
  joinUnderscore (parts.drop (parts.length - 2))

/-- The stripped variable name used by both renamers: remove the last two
suffix components when the label contains the pattern (`"_set_1"` or
`"_value_1"`), else keep the label. -/
def varNameWith (pat v : String) : String :=
  if strContains v pat then joinDropLast2 v else v

/-- `np.argmax` on a nonempty list: index of the first maximum. -/
def argmaxAux {α : Type} [LinearOrder α] : List α → ℕ → ℕ → α → ℕ
  | [], _, besti, _ => besti
  | x :: xs, i, besti, bestv =>
    if bestv < x then argmaxAux xs (i + 1) i x else argmaxAux xs (i + 1) besti bestv

/-- `np.argmax`: first index attaining the maximum (`0` on `[]`, which
the renamers never hit since they call it only on groups of size `> 1`). -/
def argmaxL {α : Type} [LinearOrder α] : List α → ℕ
  | [] => 0
  | x :: xs => argmaxAux xs 1 0 x

/-- Common core of `_rename_set_1` and `_rename_value_1`: the two source
functions are textually identical up to the suffix pattern and the score
used to break multi-member groups (`df.count()` observation counts for
columns, `df.date_time` timestamps for rows).  Returns the `renames`
mapping as ordered `(label, new label)` pairs. -/
def renameLabels {α : Type} [LinearOrder α] [Inhabited α]
    (pat : String) (labels : List String) (scores : List α) :
    List (String × String) :=
  let varNames := labels.map (varNameWith pat)
  (List.range labels.length).map fun i =>
    let name := varNames.getD i ""
    let labi := labels.getD i ""
    let varIdx := (List.range labels.length).filter
      fun j => strStartsWith (labels.getD j "") (name ++ pat)
    if varIdx.length = 1 then
      (labi, varNames.getD (varIdx.getD 0 0) "")
    else if 1 < varIdx.length then
      let maxPos := argmaxL (varIdx.map fun j => scores.getD j default)
      let maxIdx := varIdx.getD maxPos 0
      if maxIdx = i then (labi, varNames.getD maxIdx "") else (labi, labi)
    else
      (labi, labi)

/-- `_rename_set_1`: disambiguate column labels, scored by the number of
non-missing observations in each column. -/
def rename_set_1 (columns : List String) (obsCounts : List ℕ) : List (String × String) :=
  renameLabels "_set_1" columns obsCounts

/-- `_rename_value_1`: disambiguate row labels, scored by each row's
`date_time` timestamp (modelled as an integer instant). -/
def rename_value_1 (rows : List String) (times : List ℤ) : List (String × String) :=
  renameLabels "_value_1" rows times

/-- Proof helper: the outcome of a two-member competing family
(`full1`, `full2` sharing base name `base`) as a function of the index
`m` selected by `np.argmax` over the two scores.  `renameLabels` on such
a family reduces definitionally to this shape. -/
def familyPick (full1 full2 base : String) (m : ℕ) : List (String × String) :=
  [(if [0, 1].getD m 0 = 0 then (full1, [base, base].getD ([0, 1].getD m 0) "")
    else (full1, full1)),
   (if [0, 1].getD m 0 = 1 then (full2, [base, base].getD ([0, 1].getD m 0) "")
    else (full2, full2))]

/-- An observation block in series form: each label maps to its column of
float values (`none` = missing / NaN). -/
abbrev ObsTable : Type := List (String × List (Option ℚ))

/-- `obs[key]` on a series-form observation block (the keys used below
are always present, as in the guarded source path). -/
def obsCol (obs : ObsTable) (k : String) : List (Option ℚ) :=
  ((List.find? (fun p => p.1 == k) obs).map (·.2)).getD []

/-- The wind-vector construction of `stations_timeseries` (executed when
both `wind_speed` and `wind_direction` appear in `SENSOR_VARIABLES`):
`zip` the speed catalog keys with the direction catalog keys in order,
decompose each pair, and append `wind_u_<set>` / `wind_v_<set>` columns
named after the *speed* key's suffix. -/
def windColumns (sinF cosF : ℚ → ℚ) (rad : ℚ)
    (speedKeys dirKeys : List String) (obs : ObsTable) : ObsTable :=
  (speedKeys.zip dirKeys).flatMap fun p =>
    let uv := spddir_to_uv_vec sinF cosF rad (obsCol obs p.1) (obsCol obs p.2)
    let thisSet := joinLast2 p.1
    [("wind_u_" ++ thisSet, uv.1), ("wind_v_" ++ thisSet, uv.2)]

/-- The wind-vector construction as the spec words it: each speed label
is paired with the direction label carrying the *same set suffix*,
never across sets; a speed set with no matching direction set produces
no column. -/
def windColumnsMatchingSets (sinF cosF : ℚ → ℚ) (rad : ℚ)
    (speedKeys dirKeys : List String) (obs : ObsTable) : ObsTable :=
  speedKeys.flatMap fun sk =>
    let thisSet := joinLast2 sk
    match List.find? (fun dk => joinLast2 dk == thisSet) dirKeys with
    | some dk =>
      let uv := spddir_to_uv_vec sinF cosF rad (obsCol obs sk) (obsCol obs dk)
      [("wind_u_" ++ thisSet, uv.1), ("wind_v_" ++ thisSet, uv.2)]
    | none => []

/-- A snapshot-form observation block (`latest` / `nearesttime`): each
slot label maps to its `date_time` (an integer instant, `none` = NaT)
and its `value` (`none` = NaN). -/
abbrev SnapshotObs : Type := List (String × (Option ℤ × Option ℚ))

/-- `obs[key]` on a snapshot-form observation block (the keys used below
are always present, as in the guarded source path). -/
def snapObs (obs : SnapshotObs) (k : String) : Option ℤ × Option ℚ :=
  ((List.find? (fun p => p.1 == k) obs).map (·.2)).getD (none, none)

/-- The wind-vector construction of `_parse_latest_nearesttime`
(executed when both `wind_speed` and `wind_direction` appear in
`SENSOR_VARIABLES`): `zip` the speed catalog keys with the direction
catalog keys in order; for each pair whose speed slot has a non-NaN
timestamp (`obs[i_spd]["date_time"] == obs[i_spd]["date_time"]`),
decompose the scalar pair and append two-row `wind_u_<set>` /
`wind_v_<set>` columns — `[date_time, u]` — named after the *speed*
key's suffix. -/
def windColumnsLatest (sinF cosF : ℚ → ℚ) (rad : ℚ)
    (speedKeys dirKeys : List String) (obs : SnapshotObs) :
    List (String × (Option ℤ × Option ℚ)) :=
  (speedKeys.zip dirKeys).flatMap fun p =>
    let spd := snapObs obs p.1
    if spd.1.isSome then
      let dir := snapObs obs p.2
      let uv := spddir_to_uv sinF cosF rad spd.2 dir.2
      let thisSet := joinLast2 p.1
      [("wind_u_" ++ thisSet, (spd.1, uv.1)), ("wind_v_" ++ thisSet, (spd.1, uv.2))]
    else []

/-- The snapshot wind-vector construction as the spec words it: each
speed slot is paired with the direction slot carrying the *same set
suffix*, never across sets; a speed slot with no matching direction
slot produces no column (the NaN-timestamp guard as in the source). -/
def windColumnsLatestMatchingSets (sinF cosF : ℚ → ℚ) (rad : ℚ)
    (speedKeys dirKeys : List String) (obs : SnapshotObs) :
    List (String × (Option ℤ × Option ℚ)) :=
  speedKeys.flatMap fun sk =>
    let spd := snapObs obs sk
    if spd.1.isSome then
      let thisSet := joinLast2 sk
      match List.find? (fun dk => joinLast2 dk == thisSet) dirKeys with
      | some dk =>
        let dir := snapObs obs dk
        let uv := spddir_to_uv sinF cosF rad spd.2 dir.2
        [("wind_u_" ++ thisSet, (spd.1, uv.1)), ("wind_v_" ++ thisSet, (spd.1, uv.2))]
      | none => []
    else []

/-- First index of an occurrence of `pat` in `s`, as `str.find`. -/
def strFindSub (s pat : String) : Option ℕ :=
  let rec go : List Char → ℕ → Option ℕ
    | [], n => if pat.data.isEmpty then some n else none
    | c :: cs, n => if List.isPrefixOf pat.data (c :: cs) then some n else go cs (n + 1)
  go s.data 0

/-- The token-hiding rewrite of `synoptic_api`'s verbose printout:
locate `"token="`, take the 38-character slice starting there
(`token=` plus a 32-character token) and replace every occurrence of
that slice with `"token=🙈HIDDEN"`.  Modelled for the token-present case
(the token default guarantees the parameter is in the URL). -/
def redactToken (url : String) : String :=
  match strFindSub url "token=" with
  | some idx => url.replace (String.mk ((url.data.drop idx).take 38)) "token=🙈HIDDEN"
  | none => url

/-- The response check of `synoptic_api` after a non-`auth` request:
read `SUMMARY.RESPONSE_CODE` and `SUMMARY.RESPONSE_MESSAGE`, decode the
final URL, and `assert code == 1` with a message holding the decoded
(unredacted) URL and the upstream message.  On success the verbose path
prints the URL, redacted only there when `hide_token` is set; the `ok`
payload is the URL as printed (or as printable, when not verbose). -/
def synoptic_api_check (verbose hide_token : Bool) (code : ℤ)
    (msg decode_url : String) : Except String String :=
  if code = 1 then
    .ok (if verbose && hide_token then redactToken decode_url else decode_url)
  else
    .error ("🛑 There are errors in the API request " ++ decode_url ++ ". " ++ msg)

/-- The shape of `stations_timeseries`' return value. -/
inductive TimeseriesReturn (β : Type) where
  | single (df : β)
  | multiple (dfs : List β)
deriving DecidableEq

/-- The tail of `stations_timeseries`: build one table per entry of the
payload's `STATION` list, then return the single table itself when
`len(Z) == 1` and the list `Z` otherwise. -/
def stationsTimeseriesReturn {σ β : Type} (build : σ → β) (stations : List σ) :
    TimeseriesReturn β :=
  let Z := stations.map build
  match Z with
  | [df] => .single df
  | _ => .multiple Z

/-- Three-decimal rounding fixes zero. -/
theorem np_round3_zero : np_round3 0 = 0 := by
  norm_num [np_round3, roundHalfEven]

/-- C1: the spec says an unparsable datetime or duration value is
non-fatal and the raw value passes through with a warning; the code
instead warns and then crashes.  The `%Y%m%d%H%M` format applied to the
raw string raises `ValueError: Invalid format specifier`, and dividing
the raw string by `timedelta(minutes=1)` raises `TypeError`, so
normalization of the whole mapping aborts instead of completing. -/
theorem c1_normalizer_crashes_on_unparsable :
    normalizeParams "tok0" [("stid", PValue.str "WBB"), ("start", PValue.str "nexttuesday")]
      = .error .valueError ∧
    normalizeParams "tok0" [("stid", PValue.str "WBB"), ("recent", PValue.str "garbage")]
      = .error .typeError :=
  ⟨rfl, rfl⟩

/-- C4 counterexample: `{"recent": 2}` normalizes to the integer `2`
(the result of `np.ceil(..).astype(int)`), not to the string `"2"`, so
the output mapping is not string-valued for duration keys. -/
theorem c4_duration_not_string_counterexample :
    normalizeParams "tok0" [("stid", PValue.str "WBB"), ("recent", PValue.int 2)]
      = .ok [("stid", PValue.str "WBB"), ("recent", PValue.int 2), ("token", PValue.str "tok0")] ∧
    PValue.int 2 ≠ PValue.str "2" :=
  ⟨rfl, by decide⟩

/-- C4 amended: a duration key with a numeric, timedelta or parsable
duration-text value maps to the number of minutes rounded up to the
next whole minute, kept as an integer value rather than a string —
e.g. `"1D"` resolves to the integer `1440`. -/
theorem c4_duration_integer_minutes (n : ℤ) (q m mins : ℚ) (s : String)
    (hp : pdToTimedelta (PValue.str s) = some mins) :
    normalizeDurationValue (PValue.int n) = .ok (PValue.int n) ∧
    normalizeDurationValue (PValue.float q) = .ok (PValue.int ⌈q⌉) ∧
    normalizeDurationValue (PValue.td m) = .ok (PValue.int ⌈m⌉) ∧
    normalizeDurationValue (PValue.str s) = .ok (PValue.int ⌈mins⌉) ∧
    normalizeDurationValue (PValue.str "1D") = .ok (PValue.int 1440) := by
  refine ⟨?_, rfl, rfl, ?_, rfl⟩
  · simp [normalizeDurationValue, pdToTimedelta, PValue.int, PValue.td, Int.ceil_intCast]
  · simp only [PValue.str] at hp
    simp only [normalizeDurationValue, PValue.str, hp]

/-- Witness for the amended C4 at the parsable duration text `"1D"`. -/
theorem c4_duration_integer_minutes_witness :
    pdToTimedelta (PValue.str "1D") = some 1440 ∧
    (normalizeDurationValue (PValue.int 2) = .ok (PValue.int 2) ∧
     normalizeDurationValue (PValue.float 2) = .ok (PValue.int ⌈(2 : ℚ)⌉) ∧
     normalizeDurationValue (PValue.td 90) = .ok (PValue.int ⌈(90 : ℚ)⌉) ∧
     normalizeDurationValue (PValue.str "1D") = .ok (PValue.int ⌈(1440 : ℚ)⌉) ∧
     normalizeDurationValue (PValue.str "1D") = .ok (PValue.int 1440)) :=
  ⟨rfl, c4_duration_integer_minutes 2 2 90 1440 "1D" rfl⟩

/-- C5: the spec (and the renamers' own documentation) says only the
exact `_set_1`/`_set_1d` (resp. `_value_1`/`_value_1d`) family competes
for the bare base name and that any other set number always keeps its
full suffixed name; but the substring test `"_set_1" in v` together with
the `startswith(name + "_set_1")` filter also captures `_set_12` (and
any `_set_1<digit>..` label), which the code then promotes to the bare
base name — a lone `_set_12` label is renamed outright, and a `_set_12`
label with the higher score even competes against `_set_1` and steals
the base name from it. -/
theorem c5_set12_promoted :
    rename_set_1 ["air_temp_set_12"] [5] = [("air_temp_set_12", "air_temp")] ∧
    rename_value_1 ["air_temp_value_12"] [0] = [("air_temp_value_12", "air_temp")] ∧
    rename_set_1 ["air_temp_set_1", "air_temp_set_12"] [1, 5]
      = [("air_temp_set_1", "air_temp_set_1"), ("air_temp_set_12", "air_temp")] ∧
    rename_value_1 ["air_temp_value_1", "air_temp_value_12"] [0, 5]
      = [("air_temp_value_1", "air_temp_value_1"), ("air_temp_value_12", "air_temp")] :=
  ⟨by decide, by decide, by decide, by decide⟩

/-- C9 counterexample: with redaction requested (`hide_token = True`) and
the API reporting a non-success code, the raised error still contains
the credential token in clear; redaction happens only in the verbose
success-path printout, after the assert. -/
theorem c9_error_not_redacted_counterexample :
    synoptic_api_check true true 2 "Auth failure" "u?token=SECRET&stid=WBB"
      = .error "🛑 There are errors in the API request u?token=SECRET&stid=WBB. Auth failure" ∧
    strContains "🛑 There are errors in the API request u?token=SECRET&stid=WBB. Auth failure"
      "token=SECRET" = true :=
  ⟨rfl, by decide⟩

/-- C9 amended: a non-success response code aborts the call with an error
holding the upstream message and the fully decoded request URL; the URL
in that error is never redacted, whatever `verbose` and `hide_token`
request (redaction applies only to the success-path printout). -/
theorem c9_amended_error_url_unredacted (verbose hide_token : Bool) (code : ℤ)
    (msg url : String) (h : code ≠ 1) :
    synoptic_api_check verbose hide_token code msg url
      = .error ("🛑 There are errors in the API request " ++ url ++ ". " ++ msg) := by
  simp [synoptic_api_check, h]

/-- Witness for the amended C9 at a concrete non-success response. -/
theorem c9_amended_error_url_unredacted_witness :
    (2 : ℤ) ≠ 1 ∧
    synoptic_api_check true true 2 "Auth failure" "u?token=SECRET&stid=WBB"
      = .error ("🛑 There are errors in the API request " ++ "u?token=SECRET&stid=WBB"
          ++ ". " ++ "Auth failure") :=
  ⟨by decide,
   c9_amended_error_url_unredacted true true 2 "Auth failure" "u?token=SECRET&stid=WBB" (by decide)⟩

/-- C10 counterexample: a payload with zero stations also returns a list
(the empty list), so a list is not returned only for two-plus stations. -/
theorem c10_empty_payload_returns_list_counterexample :
    stationsTimeseriesReturn (fun n : ℕ => n) [] = .multiple [] ∧
    ([] : List ℕ).length < 2 :=
  ⟨rfl, by decide⟩

/-- C10 amended: a payload with exactly one station returns that
station's table itself; a payload with any other number of stations
(zero included) returns the list of tables. -/
theorem c10_amended_return_shape {σ β : Type} (build : σ → β) (s : σ)
    (stations : List σ) (h : stations.length ≠ 1) :
    stationsTimeseriesReturn build [s] = .single (build s) ∧
    stationsTimeseriesReturn build stations = .multiple (stations.map build) := by
  constructor
  · rfl
  · match stations with
    | [] => rfl
    | [x] => simp at h
    | x :: y :: t => rfl

/-- Witness for the amended C10 with one station and with two. -/
theorem c10_amended_return_shape_witness :
    ([10, 20] : List ℕ).length ≠ 1 ∧
    (stationsTimeseriesReturn (fun n : ℕ => n + 1) [7] = .single 8 ∧
     stationsTimeseriesReturn (fun n : ℕ => n + 1) [10, 20] = .multiple [11, 21]) :=
  ⟨by decide, c10_amended_return_shape (fun n : ℕ => n + 1) 7 [10, 20] (by decide)⟩

/-- C2: zero speed yields exactly `(0, 0)` for any direction — scalar or
vectorized — never NaN or a rounding artifact: the direction may even be
NaN (`none`), the zero-speed guard still forces exact zeros. -/
theorem c2_zero_speed_gives_zero_uv (sinF cosF : ℚ → ℚ) (rad : ℚ) (d : Option ℚ)
    (ws wd : List (Option ℚ)) (i : ℕ)
    (hs : ws[i]? = some (some 0)) (hd : i < wd.length) :
    spddir_to_uv sinF cosF rad (some 0) d = (some 0, some 0) ∧
    ((spddir_to_uv_vec sinF cosF rad ws wd).1[i]? = some (some 0) ∧
     (spddir_to_uv_vec sinF cosF rad ws wd).2[i]? = some (some 0)) := by
  have hi : i < ws.length := by
    by_contra hlt
    push_neg at hlt
    rw [List.getElem?_eq_none (by omega)] at hs
    exact Option.noConfusion hs
  have hws : ws[i] = some 0 := by
    rw [List.getElem?_eq_getElem hi] at hs
    exact Option.some.inj hs
  have key : ∀ inner : List (Option ℚ), inner.length = min ws.length wd.length →
      (List.map (Option.map np_round3)
        (List.zipWith (fun s x => if s = some 0 then some 0 else x) ws inner))[i]?
        = some (some 0) := by
    intro inner hlen
    have hii : i < inner.length := by omega
    rw [List.getElem?_map, List.getElem?_zipWith,
      List.getElem?_eq_getElem hi, List.getElem?_eq_getElem hii]
    simp [hws, np_round3_zero]
  refine ⟨by simp [spddir_to_uv, np_round3_zero], ?_, ?_⟩
  · exact key _ (by simp)
  · exact key _ (by simp)

/-- Witness for C2 at a concrete zero-speed scalar and a concrete
zero-speed array position. -/
theorem c2_zero_speed_gives_zero_uv_witness :
    (([some (0:ℚ)] : List (Option ℚ))[0]? = some (some 0) ∧
      0 < ([some (5:ℚ)] : List (Option ℚ)).length) ∧
    (spddir_to_uv id id 1 (some 0) (some 37) = (some 0, some 0) ∧
     ((spddir_to_uv_vec id id 1 [some 0] [some 5]).1[0]? = some (some 0) ∧
      (spddir_to_uv_vec id id 1 [some 0] [some 5]).2[0]? = some (some 0))) :=
  ⟨⟨rfl, by decide⟩,
   c2_zero_speed_gives_zero_uv id id 1 (some 37) [some 0] [some 5] 0 rfl (by decide)⟩

/-- C3: on equal-length lists the vectorized decomposer agrees, position
by position, with the scalar decomposer applied to each pair. -/
theorem c3_vectorized_matches_scalar (sinF cosF : ℚ → ℚ) (rad : ℚ) (ws wd : List ℚ)
    (h : ws.length = wd.length) :
    spddir_to_uv_vec sinF cosF rad (ws.map some) (wd.map some)
      = ((ws.zip wd).map fun p => (spddir_to_uv sinF cosF rad (some p.1) (some p.2)).1,
         (ws.zip wd).map fun p => (spddir_to_uv sinF cosF rad (some p.1) (some p.2)).2) := by
  induction ws generalizing wd with
  | nil =>
    cases wd with
    | nil => rfl
    | cons b bs => simp at h
  | cons a as ih =>
    cases wd with
    | nil => simp at h
    | cons b bs =>
      have ih' := ih bs (Nat.succ.inj h)
      exact Prod.ext (congrArg₂ List.cons rfl (congrArg Prod.fst ih'))
        (congrArg₂ List.cons rfl (congrArg Prod.snd ih'))

/-- Witness for C3 on a concrete equal-length pair of lists. -/
theorem c3_vectorized_matches_scalar_witness :
    ([0, 3] : List ℚ).length = ([90, 180] : List ℚ).length ∧
    spddir_to_uv_vec id id 1 (([0, 3] : List ℚ).map some) (([90, 180] : List ℚ).map some)
      = ((([0, 3] : List ℚ).zip [90, 180]).map
            fun p => (spddir_to_uv id id 1 (some p.1) (some p.2)).1,
         (([0, 3] : List ℚ).zip [90, 180]).map
            fun p => (spddir_to_uv id id 1 (some p.1) (some p.2)).2) :=
  ⟨rfl, c3_vectorized_matches_scalar id id 1 [0, 3] [90, 180] rfl⟩

/-- C6: a one-member competing group is promoted to the bare base name
unconditionally (zero observation count, any timestamp); in a two-member
group the member with the strictly greater score (observation count in
series form, timestamp in snapshot form) is promoted while the other
keeps its full label, and on an exact tie the first member — the
lowest-numbered one, since the table builders sort labels — wins
(`np.argmax` keeps the first maximum). -/
theorem c6_group_promotion (n1 n2 : ℕ) (t t1 t2 : ℤ) :
    rename_set_1 ["air_temp_set_1d"] [0] = [("air_temp_set_1d", "air_temp")] ∧
    rename_value_1 ["air_temp_value_1"] [t] = [("air_temp_value_1", "air_temp")] ∧
    rename_set_1 ["air_temp_set_1", "air_temp_set_1d"] [n1, n2]
      = (if n1 < n2
         then [("air_temp_set_1", "air_temp_set_1"), ("air_temp_set_1d", "air_temp")]
         else [("air_temp_set_1", "air_temp"), ("air_temp_set_1d", "air_temp_set_1d")]) ∧
    rename_value_1 ["air_temp_value_1", "air_temp_value_1d"] [t1, t2]
      = (if t1 < t2
         then [("air_temp_value_1", "air_temp_value_1"), ("air_temp_value_1d", "air_temp")]
         else [("air_temp_value_1", "air_temp"), ("air_temp_value_1d", "air_temp_value_1d")]) := by
  refine ⟨by decide, rfl, ?_, ?_⟩
  · have e : rename_set_1 ["air_temp_set_1", "air_temp_set_1d"] [n1, n2]
        = familyPick "air_temp_set_1" "air_temp_set_1d" "air_temp" (argmaxAux [n2] 1 0 n1) := rfl
    by_cases h : n1 < n2
    · rw [if_pos h, e, show argmaxAux [n2] 1 0 n1 = 1 by simp [argmaxAux, h]]
      decide
    · rw [if_neg h, e, show argmaxAux [n2] 1 0 n1 = 0 by simp [argmaxAux, h]]
      decide
  · have e : rename_value_1 ["air_temp_value_1", "air_temp_value_1d"] [t1, t2]
        = familyPick "air_temp_value_1" "air_temp_value_1d" "air_temp" (argmaxAux [t2] 1 0 t1) := rfl
    by_cases h : t1 < t2
    · rw [if_pos h, e, show argmaxAux [t2] 1 0 t1 = 1 by simp [argmaxAux, h]]
      decide
    · rw [if_neg h, e, show argmaxAux [t2] 1 0 t1 = 0 by simp [argmaxAux, h]]
      decide

/-- A label starting with `nm ++ pat` contains `pat` as a substring. -/
theorem strStartsWith_append_contains (s x pat : String)
    (h : strStartsWith s (x ++ pat) = true) : strContains s pat = true := by
  unfold strStartsWith at h
  unfold strContains
  rw [List.isPrefixOf_iff_prefix] at h
  rw [decide_eq_true_eq]
  have hsub : pat.data <:+: (x ++ pat).data := by
    rw [String.data_append]
    exact (List.suffix_append x.data pat.data).isInfix
  exact hsub.trans h.isInfix

/-- When no label contains the suffix pattern, the renamer maps every
label to itself: both the substring test and the `startswith` filter
come up empty, so every label falls into the keep branch. -/
theorem renameLabels_id {α : Type} [LinearOrder α] [Inhabited α] (pat : String)
    (labels : List String) (scores : List α)
    (h : ∀ c ∈ labels, strContains c pat = false) :
    renameLabels pat labels scores = labels.map (fun c => (c, c)) := by
  unfold renameLabels
  apply List.ext_getElem (by simp)
  intro i h1 h2
  have hi : i < labels.length := by simpa using h2
  have hgetD : labels.getD i "" = labels[i] := by
    rw [List.getD_eq_getElem?_getD, List.getElem?_eq_getElem hi]
    rfl
  have hvar : (labels.map (varNameWith pat)).getD i "" = labels[i] := by
    rw [List.getD_eq_getElem?_getD, List.getElem?_map, List.getElem?_eq_getElem hi]
    simp only [Option.map_some', Option.getD_some]
    unfold varNameWith
    rw [h _ (List.getElem_mem hi)]
    rfl
  have hfilter : ∀ nm : String, nm = labels[i] →
      (List.range labels.length).filter
        (fun j => strStartsWith (labels.getD j "") (nm ++ pat)) = [] := by
    intro nm hnm
    rw [List.filter_eq_nil_iff]
    intro j hj
    have hjlt : j < labels.length := List.mem_range.mp hj
    have hgj : labels.getD j "" = labels[j] := by
      rw [List.getD_eq_getElem?_getD, List.getElem?_eq_getElem hjlt]
      rfl
    rw [hgj]
    intro hsw
    have := strStartsWith_append_contains labels[j] nm pat hsw
    rw [h _ (List.getElem_mem hjlt)] at this
    exact Bool.noConfusion this
  simp only [List.getElem_map, List.getElem_range]
  rw [hvar, hgetD, hfilter labels[i] rfl]
  simp

/-- C7: the disambiguators are idempotent — on a table whose labels carry
no remaining `_set_1` (resp. `_value_1`) suffix, a second run maps every
label to itself, whatever the scores are. -/
theorem c7_idempotent (cols : List String) (counts : List ℕ)
    (rows : List String) (times : List ℤ)
    (h1 : ∀ c ∈ cols, strContains c "_set_1" = false)
    (h2 : ∀ r ∈ rows, strContains r "_value_1" = false) :
    rename_set_1 cols counts = cols.map (fun c => (c, c)) ∧
    rename_value_1 rows times = rows.map (fun r => (r, r)) :=
  ⟨renameLabels_id "_set_1" cols counts h1,
   renameLabels_id "_value_1" rows times h2⟩

/-- Witness for C7 on a concrete already-disambiguated label set
(including an `_set_2` label, which carries no `_set_1` suffix). -/
theorem c7_idempotent_witness :
    ((∀ c ∈ ["ELEVATION", "air_temp", "air_temp_set_2"], strContains c "_set_1" = false) ∧
     (∀ r ∈ ["ELEVATION", "air_temp", "air_temp_value_2"], strContains r "_value_1" = false)) ∧
    (rename_set_1 ["ELEVATION", "air_temp", "air_temp_set_2"] [3, 4, 5]
        = ["ELEVATION", "air_temp", "air_temp_set_2"].map (fun c => (c, c)) ∧
     rename_value_1 ["ELEVATION", "air_temp", "air_temp_value_2"] [0, 1, 2]
        = ["ELEVATION", "air_temp", "air_temp_value_2"].map (fun r => (r, r))) :=
  ⟨⟨by decide, by decide⟩,
   c7_idempotent ["ELEVATION", "air_temp", "air_temp_set_2"] [3, 4, 5]
     ["ELEVATION", "air_temp", "air_temp_value_2"] [0, 1, 2] (by decide) (by decide)⟩

/-- A speed catalog positionally matched to a direction catalog has each
speed suffix present among the direction suffixes. -/
theorem forall₂_suffix_mem {xs ys : List String}
    (h : List.Forall₂ (fun s d => joinLast2 s = joinLast2 d) xs ys) :
    ∀ x ∈ xs, joinLast2 x ∈ ys.map joinLast2 := by
  induction h with
  | nil => intro x hx; exact absurd hx (List.not_mem_nil x)
  | cons hsd htail ih =>
    intro x hx
    rcases List.mem_cons.mp hx with hx | hx
    · subst hx
      exact List.mem_cons.mpr (Or.inl hsd)
    · exact List.mem_cons.mpr (Or.inr (ih x hx))

/-- When the two catalogs list the same set suffixes position by position
(and the direction suffixes are distinct), the positional `zip` pairing
of the source coincides with the matching-set pairing of the spec. -/
theorem windColumns_eq_matchingSets (sinF cosF : ℚ → ℚ) (rad : ℚ) (obs : ObsTable) :
    ∀ {sk dk : List String},
      List.Forall₂ (fun s d => joinLast2 s = joinLast2 d) sk dk →
      (dk.map joinLast2).Nodup →
      windColumns sinF cosF rad sk dk obs
        = windColumnsMatchingSets sinF cosF rad sk dk obs := by
  intro sk dk h
  induction h with
  | nil => intro _; rfl
  | @cons a b l1 l2 hsd htail ih =>
    intro hnd
    rw [List.map_cons, List.nodup_cons] at hnd
    obtain ⟨hb, hnd'⟩ := hnd
    have hfind : List.find? (fun dk' => joinLast2 dk' == joinLast2 a) (b :: l2) = some b := by
      rw [List.find?_cons_of_pos]
      rw [beq_iff_eq, hsd]
    have htailrw : ∀ s' ∈ l1,
        List.find? (fun dk' => joinLast2 dk' == joinLast2 s') (b :: l2)
          = List.find? (fun dk' => joinLast2 dk' == joinLast2 s') l2 := by
      intro s' hs'
      apply List.find?_cons_of_neg
      rw [beq_iff_eq]
      intro hbe
      exact hb (hbe ▸ forall₂_suffix_mem htail s' hs')
    unfold windColumns windColumnsMatchingSets
    rw [List.zip_cons_cons, List.flatMap_cons, List.flatMap_cons]
    congr 1
    · simp only [hfind]
    · show windColumns sinF cosF rad l1 l2 obs = _
      rw [ih hnd']
      unfold windColumnsMatchingSets
      exact List.flatMap_congr fun s' hs' => by simp only [htailrw s' hs']

/-- C8 counterexample: with a station whose catalog lists
`wind_speed_set_1`, `wind_speed_set_2` but only `wind_direction_set_2`,
the positional `zip` pairs `wind_speed_set_1` with `wind_direction_set_2`
— across different sets — and labels the result `wind_u_set_1`, while
the spec's matching-set pairing would produce `wind_u_set_2` columns
only.  So the builders do not pair by matching set index. -/
theorem c8_positional_pairing_counterexample :
    (windColumns (fun _ => 0) (fun _ => 0) 1
        ["wind_speed_set_1", "wind_speed_set_2"] ["wind_direction_set_2"]
        [("wind_speed_set_1", [some 1]), ("wind_speed_set_2", [some 2]),
         ("wind_direction_set_2", [some 3])]).map Prod.fst
      = ["wind_u_set_1", "wind_v_set_1"] ∧
    (windColumnsMatchingSets (fun _ => 0) (fun _ => 0) 1
        ["wind_speed_set_1", "wind_speed_set_2"] ["wind_direction_set_2"]
        [("wind_speed_set_1", [some 1]), ("wind_speed_set_2", [some 2]),
         ("wind_direction_set_2", [some 3])]).map Prod.fst
      = ["wind_u_set_2", "wind_v_set_2"] ∧
    windColumns (fun _ => 0) (fun _ => 0) 1
        ["wind_speed_set_1", "wind_speed_set_2"] ["wind_direction_set_2"]
        [("wind_speed_set_1", [some 1]), ("wind_speed_set_2", [some 2]),
         ("wind_direction_set_2", [some 3])]
      ≠ windColumnsMatchingSets (fun _ => 0) (fun _ => 0) 1
        ["wind_speed_set_1", "wind_speed_set_2"] ["wind_direction_set_2"]
        [("wind_speed_set_1", [some 1]), ("wind_speed_set_2", [some 2]),
         ("wind_direction_set_2", [some 3])] := by
  refine ⟨by decide, by decide, ?_⟩
  intro hEq
  have h1 := congrArg (fun l => l.map Prod.fst) hEq
  simp only at h1
  rw [show (windColumns (fun _ => 0) (fun _ => 0) 1
        ["wind_speed_set_1", "wind_speed_set_2"] ["wind_direction_set_2"]
        [("wind_speed_set_1", [some 1]), ("wind_speed_set_2", [some 2]),
         ("wind_direction_set_2", [some 3])]).map Prod.fst
      = ["wind_u_set_1", "wind_v_set_1"] by decide] at h1
  rw [show (windColumnsMatchingSets (fun _ => 0) (fun _ => 0) 1
        ["wind_speed_set_1", "wind_speed_set_2"] ["wind_direction_set_2"]
        [("wind_speed_set_1", [some 1]), ("wind_speed_set_2", [some 2]),
         ("wind_direction_set_2", [some 3])]).map Prod.fst
      = ["wind_u_set_2", "wind_v_set_2"] by decide] at h1
  exact absurd h1 (by decide)

/-- The snapshot builder's positional `zip` pairing (with its
NaN-timestamp guard) also coincides with the spec's matching-set pairing
whenever the two catalogs carry the same set suffixes position by
position, distinct on the direction side. -/
theorem windColumnsLatest_eq_matchingSets (sinF cosF : ℚ → ℚ) (rad : ℚ)
    (obs : SnapshotObs) :
    ∀ {sk dk : List String},
      List.Forall₂ (fun s d => joinLast2 s = joinLast2 d) sk dk →
      (dk.map joinLast2).Nodup →
      windColumnsLatest sinF cosF rad sk dk obs
        = windColumnsLatestMatchingSets sinF cosF rad sk dk obs := by
  intro sk dk h
  induction h with
  | nil => intro _; rfl
  | @cons a b l1 l2 hsd htail ih =>
    intro hnd
    rw [List.map_cons, List.nodup_cons] at hnd
    obtain ⟨hb, hnd'⟩ := hnd
    have hfind : List.find? (fun dk' => joinLast2 dk' == joinLast2 a) (b :: l2) = some b := by
      rw [List.find?_cons_of_pos]
      rw [beq_iff_eq, hsd]
    have htailrw : ∀ s' ∈ l1,
        List.find? (fun dk' => joinLast2 dk' == joinLast2 s') (b :: l2)
          = List.find? (fun dk' => joinLast2 dk' == joinLast2 s') l2 := by
      intro s' hs'
      apply List.find?_cons_of_neg
      rw [beq_iff_eq]
      intro hbe
      exact hb (hbe ▸ forall₂_suffix_mem htail s' hs')
    unfold windColumnsLatest windColumnsLatestMatchingSets
    rw [List.zip_cons_cons, List.flatMap_cons, List.flatMap_cons]
    congr 1
    · simp only [hfind]
    · show windColumnsLatest sinF cosF rad l1 l2 obs = _
      rw [ih hnd']
      unfold windColumnsLatestMatchingSets
      exact List.flatMap_congr fun s' hs' => by simp only [htailrw s' hs']

/-- C8 amended: both table builders pair the k-th speed catalog key with
the k-th direction catalog key (the snapshot builder additionally skips
a pair whose speed slot has a NaN timestamp); whenever the two catalogs
carry the same set suffixes position by position (distinct on the
direction side) this coincides with matching-set pairing in both
builders, and in the series form each wind-vector column is elementwise
aligned with its sources — in particular a row where both sources are
missing gets a missing wind vector. -/
theorem c8_amended_pairing_and_missing (sinF cosF : ℚ → ℚ) (rad : ℚ)
    (sk dk : List String) (obs : ObsTable) (sobs : SnapshotObs)
    (hmatch : List.Forall₂ (fun s d => joinLast2 s = joinLast2 d) sk dk)
    (hnd : (dk.map joinLast2).Nodup)
    (ws wd : List (Option ℚ)) (i : ℕ)
    (hs : ws[i]? = some none) (hd : wd[i]? = some none) :
    windColumns sinF cosF rad sk dk obs
      = windColumnsMatchingSets sinF cosF rad sk dk obs ∧
    windColumnsLatest sinF cosF rad sk dk sobs
      = windColumnsLatestMatchingSets sinF cosF rad sk dk sobs ∧
    ((spddir_to_uv_vec sinF cosF rad ws wd).1[i]? = some none ∧
     (spddir_to_uv_vec sinF cosF rad ws wd).2[i]? = some none) := by
  have key : ∀ tf : ℚ → ℚ,
      (List.map (Option.map np_round3)
        (List.zipWith (fun s x => if s = some 0 then some 0 else x) ws
          (List.zipWith
            (fun s d => s.bind fun sv => d.map fun dv => -sv * tf (rad * dv)) ws wd)))[i]?
        = some none := by
    intro tf
    rw [List.getElem?_map, List.getElem?_zipWith, List.getElem?_zipWith, hs, hd]
    simp
  exact ⟨windColumns_eq_matchingSets sinF cosF rad obs hmatch hnd,
    windColumnsLatest_eq_matchingSets sinF cosF rad sobs hmatch hnd,
    key sinF, key cosF⟩

/-- Witness for the amended C8 on a matched one-set catalog, both in
series form (a row missing both sources) and in snapshot form. -/
theorem c8_amended_pairing_and_missing_witness :
    (List.Forall₂ (fun s d => joinLast2 s = joinLast2 d)
        ["wind_speed_set_1"] ["wind_direction_set_1"] ∧
     (["wind_direction_set_1"].map joinLast2).Nodup ∧
     ([none] : List (Option ℚ))[0]? = some none) ∧
    (windColumns id id 1 ["wind_speed_set_1"] ["wind_direction_set_1"]
        [("wind_speed_set_1", [none]), ("wind_direction_set_1", [none])]
      = windColumnsMatchingSets id id 1 ["wind_speed_set_1"] ["wind_direction_set_1"]
        [("wind_speed_set_1", [none]), ("wind_direction_set_1", [none])] ∧
     windColumnsLatest id id 1 ["wind_speed_set_1"] ["wind_direction_set_1"]
        [("wind_speed_set_1", (some 100, some 3)), ("wind_direction_set_1", (some 100, some 90))]
      = windColumnsLatestMatchingSets id id 1 ["wind_speed_set_1"] ["wind_direction_set_1"]
        [("wind_speed_set_1", (some 100, some 3)), ("wind_direction_set_1", (some 100, some 90))] ∧
     ((spddir_to_uv_vec id id 1 [none] [none]).1[0]? = some none ∧
      (spddir_to_uv_vec id id 1 [none] [none]).2[0]? = some none)) :=
  ⟨⟨by decide, by decide, rfl⟩,
   c8_amended_pairing_and_missing id id 1 ["wind_speed_set_1"] ["wind_direction_set_1"]
     [("wind_speed_set_1", [none]), ("wind_direction_set_1", [none])]
     [("wind_speed_set_1", (some 100, some 3)), ("wind_direction_set_1", (some 100, some 90))]
     (by decide) (by decide) [none] [none] 0 rfl rfl⟩
